import Mathlib

/-!
Shallow embedding of the IBKR CSV trading system
(`ib_auto_trader.py` / `ib_autotrade_realtest.py`).

A pandas row is modelled as a record of optional cells: `none` stands for a
column that is absent from the table or a NaN cell (both make `row.get`
return a non-value and `row[...]` raise, which the source catches).  A
quantity cell is either an integer value (the case where `int(...)`
succeeds) or a non-numeric payload (the case where `int(...)` raises
`ValueError`).  Exceptions inside `create_contract` and `create_order` are
made explicit as `Except` / outcome values, mirroring the try/except blocks
that turn every exception into a `None` return.  The brokerage gateway is an
oracle indexed by the invocation number, returning `none` exactly when
`placeOrder` raises or fails (the source catches this and returns `None`).
-/

/-- A quantity cell: the result of `int(row[...])` on it either succeeds
with an integer or raises `ValueError` on a non-numeric payload. -/
inductive Quant where
  | intVal (n : Int)
  | nonNumeric (s : String)
deriving DecidableEq

/-- One CSV row as seen through pandas accessors.  `none` = column absent
or NaN cell. -/
structure Row where
  symbol : Option String := none
  exchange : Option String := none
  currency : Option String := none
  action : Option String := none
  quantity : Option Quant := none
  orderType : Option String := none
  lmtPrice : Option Int := none
  auxPrice : Option Int := none
  timeInForce : Option String := none
  account : Option String := none
deriving DecidableEq

/-- The `Stock(...)` contract built by `create_contract`. -/
structure Contract where
  symbol : String
  exchange : String
  currency : String
deriving DecidableEq

/-- The `Order()` object built by `create_order`; optional fields model
attributes that the source only assigns conditionally. -/
structure Order where
  action : String
  totalQuantity : Int
  orderType : String
  lmtPrice : Option Int := none
  auxPrice : Option Int := none
  tif : String := "DAY"
  account : Option String := none
deriving DecidableEq

/-- The trade handle returned by `ib.placeOrder`. -/
structure Trade where
  orderId : Nat
  status : String
deriving DecidableEq

/-- A Python exception raised inside one of the try blocks. -/
inductive PyErr where
  | keyError (col : String)
  | valueError (msg : String)
deriving DecidableEq

/-- `MAX_ORDER_SIZE = 1000`, the safety limit on shares per order. -/
def MAX_ORDER_SIZE : Int := 1000

/-- Python `str.upper()` on the ASCII data of this system, character by
character. -/
def strUpper (s : String) : String :=
  ⟨s.data.map Char.toUpper⟩

/-- Python `str.lower()` on the ASCII data of this system, character by
character. -/
def strLower (s : String) : String :=
  ⟨s.data.map Char.toLower⟩

/-- `row['Exchange'].split('/')[0]`: the first token before a slash. -/
def firstExchangeToken (ex : String) : String :=
  (ex.splitOn "/").headD ex

/-- Body of `create_contract` with the exception made explicit:
`row['Symbol']` raises `KeyError` when the cell is absent; the exchange and
currency lookups use `row.get` with defaults and cannot raise. -/
def create_contract_body (r : Row) : Except PyErr Contract :=
  match r.symbol with
  | none => .error (.keyError "Symbol")
  | some sym =>
    .ok { symbol := sym
        , exchange :=
            match r.exchange with
            | some ex => firstExchangeToken ex
            | none => "SMART"
        , currency := r.currency.getD "USD" }

/-- `create_contract`: the try/except wrapper turns any exception into
`None`. -/
def create_contract (r : Row) : Option Contract :=
  (create_contract_body r).toOption

/-- The three ways the body of `create_order` can end, each matching one
source branch: the safety-limit early return (logged as a warning), an
exception (logged as an error), or a built order. -/
inductive CreateOrderOutcome where
  | ok (o : Order)
  | safetyRejected (q : Int)
  | pyError (e : PyErr)
deriving DecidableEq

/-- Body of `create_order`, branch for branch: `row['Action']` then
`int(row['Quantity'])` may raise; then the `quantity > MAX_ORDER_SIZE`
guard returns `None` after a warning; then the order object is assembled,
with `lmtPrice` set only for `LMT` with a present cell, `auxPrice` only for
`STP` / `STP LMT` with a present cell, `tif` defaulting to `DAY` and
`account` set only when present. -/
def create_order_run (r : Row) : CreateOrderOutcome :=
  match r.action with
  | none => .pyError (.keyError "Action")
  | some act =>
    match r.quantity with
    | none => .pyError (.keyError "Quantity")
    | some (.nonNumeric s) => .pyError (.valueError s)
    | some (.intVal q) =>
      if q > MAX_ORDER_SIZE then
        .safetyRejected q
      else
        .ok { action := strUpper act
            , totalQuantity := q
            , orderType := strUpper (r.orderType.getD "MKT")
            , lmtPrice :=
                if strUpper (r.orderType.getD "MKT") = "LMT" then r.lmtPrice
                else none
            , auxPrice :=
                if strUpper (r.orderType.getD "MKT") = "STP"
                    ∨ strUpper (r.orderType.getD "MKT") = "STP LMT" then
                  r.auxPrice
                else none
            , tif := r.timeInForce.getD "DAY"
            , account := r.account }

/-- `create_order`: both the safety branch and the except branch return
`None` to the caller. -/
def create_order (r : Row) : Option Order :=
  match create_order_run r with
  | .ok o => some o
  | _ => none

/-- The gateway oracle: invocation number, contract and order in, either a
trade handle or a failure (`placeOrder` raising, caught by `place_order`
which then returns `None`). -/
def Gateway : Type := Nat → Contract → Order → Option Trade

/-- `place_order`: returns the trade handle or `None` on failure. -/
def place_order (g : Gateway) (k : Nat) (c : Contract) (o : Order) :
    Option Trade :=
  g k c o

/-- What happened to one row of the batch, matching the source control
flow: contract creation failed (`continue`), order creation raised
(`continue`), the safety guard rejected (`continue`), the gateway call
failed (`trade` falsy, nothing appended), or the trade was recorded. -/
inductive RowOutcome where
  | contractFailed (e : PyErr)
  | orderCreateFailed (e : PyErr)
  | orderSafetyRejected (q : Int)
  | placeFailed
  | placed (t : Trade)
deriving DecidableEq

/-- Result of the processing loop: per-row outcomes in row order, the
gateway invocations in the order they were issued, and the accumulated
`trades` list. -/
structure ProcResult where
  outcomes : List RowOutcome
  calls : List (Contract × Order)
  trades : List Trade
deriving DecidableEq

/-- The `for idx, row in df.iterrows()` loop of `process_all_orders`,
with the gateway invocation counter threaded through. -/
def processRows (g : Gateway) : Nat → List Row → ProcResult
  | _, [] => ⟨[], [], []⟩
  | k, r :: rs =>
    match create_contract_body r with
    | .error e =>
      let rest := processRows g k rs
      ⟨.contractFailed e :: rest.outcomes, rest.calls, rest.trades⟩
    | .ok c =>
      match create_order_run r with
      | .pyError e =>
        let rest := processRows g k rs
        ⟨.orderCreateFailed e :: rest.outcomes, rest.calls, rest.trades⟩
      | .safetyRejected q =>
        let rest := processRows g k rs
        ⟨.orderSafetyRejected q :: rest.outcomes, rest.calls, rest.trades⟩
      | .ok o =>
        match place_order g k c o with
        | none =>
          let rest := processRows g (k + 1) rs
          ⟨.placeFailed :: rest.outcomes, (c, o) :: rest.calls, rest.trades⟩
        | some t =>
          let rest := processRows g (k + 1) rs
          ⟨.placed t :: rest.outcomes, (c, o) :: rest.calls,
            t :: rest.trades⟩

/-- The CSV source as `read_orders_from_csv` can see it: the file is
missing (`FileNotFoundError`), unreadable (any other exception), or parses
to a list of rows. -/
inductive CsvSource where
  | notFound
  | readError
  | table (rows : List Row)
deriving DecidableEq

/-- `read_orders_from_csv`: both exception branches log an error and
return `None`; a parsed table is returned as a dataframe. -/
def read_orders_from_csv : CsvSource → Option (List Row)
  | .notFound => none
  | .readError => none
  | .table rows => some rows

/-- `process_all_orders`: an unreadable or empty source yields an empty
trade list; otherwise every row passes through the loop. -/
def process_all_orders (g : Gateway) (src : CsvSource) : ProcResult :=
  match read_orders_from_csv src with
  | none => ⟨[], [], []⟩
  | some rows =>
    if rows.isEmpty then ⟨[], [], []⟩
    else processRows g 0 rows

/-- The contract/order pair a row contributes to the gateway, when both
creations succeed; `none` when the row is skipped before placement. -/
def rowCall (r : Row) : Option (Contract × Order) :=
  match create_contract r, create_order r with
  | some c, some o => some (c, o)
  | _, _ => none

/-- Substring test on character lists: Python `needle in hay`. -/
def listContainsSub (needle : List Char) : List Char → Bool
  | [] => needle.isEmpty
  | c :: cs => needle.isPrefixOf (c :: cs) || listContainsSub needle cs

/-- Python `needle in hay` on strings. -/
def strContains (hay needle : String) : Bool :=
  listContainsSub needle.toList hay.toList

/-- The per-account test of the paper guard:
`'paper' in acc.lower() or 'df' in acc.lower() or 'du' in acc.lower()`. -/
def isPaperLike (acc : String) : Bool :=
  strContains (strLower acc) "paper" || strContains (strLower acc) "df"
    || strContains (strLower acc) "du"

/-- What `IBConnectionManager.connect` produces: the returned boolean and
whether the not-a-paper-account warning was logged. -/
structure ConnectResult where
  success : Bool
  warned : Bool
deriving DecidableEq

/-- `IBConnectionManager.connect`: `connOk` is whether `ib.connect`
succeeds (its failure is caught and turns into `return False`).  On
success, with `PAPER_TRADING_ONLY` set, the warning fires exactly when the
managed-account list is non-empty and no account matches the paper
pattern; `True` is returned in every successful case. -/
def connect (paperOnly : Bool) (connOk : Bool) (accounts : List String) :
    ConnectResult :=
  if connOk then
    if paperOnly then
      ⟨true, !accounts.isEmpty && !accounts.any isPaperLike⟩
    else
      ⟨true, false⟩
  else
    ⟨false, false⟩

/-- One position row returned by `ib.positions()`.  Numeric fields are
modelled as rationals; the record carries no market price, matching the
data available to `fetch_positions`. -/
structure Position where
  symbol : String
  position : Rat
  avgCost : Rat
deriving DecidableEq

/-- The unrealized profit-and-loss column printed by `fetch_positions`:
`pos.position * (pos.avgCost - pos.avgCost)`. -/
def unrealizedPnL (p : Position) : Rat :=
  p.position * (p.avgCost - p.avgCost)

/-- The market-value column printed by `fetch_positions`:
`pos.position * pos.avgCost`. -/
def marketValueDisplayed (p : Position) : Rat :=
  p.position * p.avgCost

/-- Modelled from the spec: `SessionReporter.summarize` and its
`ordersAttempted` count (the source only logs `len(trades)`; the count
definitions are absent from the source).  `ordersAttempted` = length of
the instruction sequence handed to the loop, i.e. one outcome per row. -/
def ordersAttempted (p : ProcResult) : Nat :=
  p.outcomes.length

/-- Modelled from the spec: `ordersRejectedBySafety` = count of orders
terminal at Rejected with a validator reason, i.e. rows the size guard
rejected. -/
def ordersRejectedBySafety (p : ProcResult) : Nat :=
  p.outcomes.countP fun o =>
    match o with
    | .orderSafetyRejected _ => true
    | _ => false

/-- Modelled from the spec: `ordersAccepted` = orders reaching Submitted
or beyond, i.e. rows whose gateway call returned a trade handle. -/
def ordersAccepted (p : ProcResult) : Nat :=
  p.outcomes.countP fun o =>
    match o with
    | .placed _ => true
    | _ => false

/-- A gateway that accepts every order, handing out consecutive ids. -/
def gOK : Gateway :=
  fun k _ _ => some ⟨k + 1, "Submitted"⟩

/-- A gateway that fails every placement. -/
def gFail : Gateway :=
  fun _ _ _ => none

/-- `BUY 100 AAPL MKT`. -/
def rowAAPL : Row :=
  { symbol := some "AAPL", action := some "BUY"
  , quantity := some (.intVal 100), orderType := some "MKT" }

/-- `SELL 2000 MSFT MKT`: quantity above the safety limit. -/
def rowMSFT : Row :=
  { symbol := some "MSFT", action := some "SELL"
  , quantity := some (.intVal 2000), orderType := some "MKT" }

/-- A row whose quantity cell is not numeric. -/
def rowBadQty : Row :=
  { symbol := some "TSLA", action := some "BUY"
  , quantity := some (.nonNumeric "abc"), orderType := some "MKT" }

/-- A row with quantity zero (non-positive). -/
def rowZeroQty : Row :=
  { symbol := some "IWM", action := some "BUY"
  , quantity := some (.intVal 0), orderType := some "MKT" }

/-- `BUY 1000 SPY MKT`: quantity exactly at the safety limit. -/
def rowBound : Row :=
  { symbol := some "SPY", action := some "BUY"
  , quantity := some (.intVal MAX_ORDER_SIZE), orderType := some "MKT" }

/-- `BUY 50 QQQ LMT` with no limit price cell. -/
def rowLmtNoPrice : Row :=
  { symbol := some "QQQ", action := some "BUY"
  , quantity := some (.intVal 50), orderType := some "LMT" }

/-- A row with no `Symbol` cell: contract creation raises `KeyError`. -/
def rowNoSymbol : Row :=
  { action := some "BUY", quantity := some (.intVal 10)
  , orderType := some "MKT" }

theorem rowCall_of_contract_err {r : Row} {e : PyErr}
    (hc : create_contract_body r = .error e) : rowCall r = none := by
  simp [rowCall, create_contract, hc, Except.toOption]

theorem rowCall_of_order_run {r : Row} {c : Contract}
    (hc : create_contract_body r = .ok c) :
    ∀ {res : CreateOrderOutcome}, create_order_run r = res →
      (∀ o, res = .ok o → rowCall r = some (c, o)) ∧
      ((∀ o, res ≠ .ok o) → rowCall r = none) := by
  intro res hres
  constructor
  · intro o hok
    subst hok
    simp [rowCall, create_contract, hc, Except.toOption, create_order, hres]
  · intro hne
    cases res with
    | ok o => exact absurd rfl (hne o)
    | safetyRejected q =>
      simp [rowCall, create_contract, hc, Except.toOption, create_order, hres]
    | pyError e =>
      simp [rowCall, create_contract, hc, Except.toOption, create_order, hres]

theorem processRows_calls (g : Gateway) (rows : List Row) :
    ∀ k, (processRows g k rows).calls = rows.filterMap rowCall := by
  induction rows with
  | nil => intro k; rfl
  | cons r rs ih =>
    intro k
    simp only [processRows]
    cases hc : create_contract_body r with
    | error e =>
      simp [rowCall_of_contract_err hc, ih]
    | ok c =>
      cases ho : create_order_run r with
      | pyError e =>
        have := ((rowCall_of_order_run hc ho).2 (by intro o h; cases h))
        simp [this, ih]
      | safetyRejected q =>
        have := ((rowCall_of_order_run hc ho).2 (by intro o h; cases h))
        simp [this, ih]
      | ok o =>
        have := (rowCall_of_order_run hc ho).1 o rfl
        cases hp : place_order g k c o <;> simp [this, ih, hp]

theorem processRows_outcomes_length (g : Gateway) (rows : List Row) :
    ∀ k, (processRows g k rows).outcomes.length = rows.length := by
  induction rows with
  | nil => intro k; rfl
  | cons r rs ih =>
    intro k
    simp only [processRows]
    cases hc : create_contract_body r with
    | error e => simp [ih]
    | ok c =>
      cases ho : create_order_run r with
      | pyError e => simp [ih]
      | safetyRejected q => simp [ih]
      | ok o =>
        cases hp : place_order g k c o <;> simp [ih, hp]

theorem processRows_append (g : Gateway) (l₁ l₂ : List Row) : ∀ k,
    processRows g k (l₁ ++ l₂) =
      ⟨(processRows g k l₁).outcomes
          ++ (processRows g (k + (l₁.filterMap rowCall).length) l₂).outcomes
       , (processRows g k l₁).calls
          ++ (processRows g (k + (l₁.filterMap rowCall).length) l₂).calls
       , (processRows g k l₁).trades
          ++ (processRows g (k + (l₁.filterMap rowCall).length) l₂).trades⟩ := by
  induction l₁ with
  | nil => intro k; simp [processRows]
  | cons r rs ih =>
    intro k
    simp only [List.cons_append, processRows]
    cases hc : create_contract_body r with
    | error e =>
      simp [ih, rowCall_of_contract_err hc]
    | ok c =>
      cases ho : create_order_run r with
      | pyError e =>
        simp [ih, ((rowCall_of_order_run hc ho).2 (by intro o h; cases h))]
      | safetyRejected q =>
        simp [ih, ((rowCall_of_order_run hc ho).2 (by intro o h; cases h))]
      | ok o =>
        have hr := (rowCall_of_order_run hc ho).1 o rfl
        have harith : k + 1 + (rs.filterMap rowCall).length
            = k + ((rs.filterMap rowCall).length + 1) := by omega
        cases hp : place_order g k c o <;>
          simp [ih, hr, harith, hp]

theorem processRows_skip (g : Gateway) (r : Row) (hrow : rowCall r = none)
    (k : Nat) (rs : List Row) :
    (processRows g k (r :: rs)).calls = (processRows g k rs).calls ∧
    (processRows g k (r :: rs)).trades = (processRows g k rs).trades ∧
    (processRows g k (r :: rs)).outcomes.length
      = (processRows g k rs).outcomes.length + 1 := by
  simp only [processRows]
  cases hc : create_contract_body r with
  | error e => simp
  | ok c =>
    cases ho : create_order_run r with
    | pyError e => simp
    | safetyRejected q => simp
    | ok o =>
      exfalso
      have hsome := (rowCall_of_order_run hc ho).1 o rfl
      rw [hrow] at hsome
      cases hsome

/-- C1: an instruction whose quantity exceeds `MAX_ORDER_SIZE` never reaches
the gateway — the gateway call sequence is the same as for the batch without
that instruction — and the outcome recorded for it is the safety rejection
(the warning branch of `create_order`) carrying the oversized quantity. -/
theorem oversize_rejected_no_gateway (g : Gateway) (pre post : List Row)
    (r : Row) (q : Int) (sym act : String)
    (hsym : r.symbol = some sym) (hact : r.action = some act)
    (hq : r.quantity = some (.intVal q)) (hgt : q > MAX_ORDER_SIZE) :
    (processRows g 0 (pre ++ r :: post)).calls
        = (processRows g 0 (pre ++ post)).calls ∧
    (processRows g 0 (pre ++ r :: post)).outcomes[pre.length]?
        = some (.orderSafetyRejected q) := by
  have horder : create_order_run r = .safetyRejected q := by
    simp [create_order_run, hact, hq, hgt]
  have hcex : ∃ c, create_contract_body r = .ok c := by
    simp [create_contract_body, hsym]
  obtain ⟨c, hc⟩ := hcex
  have hrow : rowCall r = none :=
    (rowCall_of_order_run hc horder).2 (by intro o h; cases h)
  constructor
  · rw [processRows_calls, processRows_calls]
    simp [List.filterMap_append, hrow]
  · rw [processRows_append g pre (r :: post) 0]
    have hlen : (processRows g 0 pre).outcomes.length = pre.length :=
      processRows_outcomes_length g pre 0
    show ((processRows g 0 pre).outcomes
        ++ (processRows g (0 + (pre.filterMap rowCall).length)
              (r :: post)).outcomes)[pre.length]?
      = some (.orderSafetyRejected q)
    rw [List.getElem?_append_right (le_of_eq hlen)]
    simp [hlen, processRows, hc, horder]

/-- C2: which instructions are attempted does not depend on the gateway at
all — two arbitrary gateway behaviours (including ones that raise on every
placement) produce the same call sequence — and every row of the batch gets
an outcome, so no placement failure aborts the loop. -/
theorem gateway_failure_never_aborts (g g' : Gateway) (k k' : Nat)
    (rows : List Row) :
    (processRows g k rows).calls = (processRows g' k' rows).calls ∧
    (processRows g k rows).outcomes.length = rows.length := by
  refine ⟨?_, processRows_outcomes_length g rows k⟩
  rw [processRows_calls, processRows_calls]

/-- C3: the gateway call sequence is exactly the row sequence restricted to
the rows that pass contract and order creation, in row order
(`List.filterMap rowCall`), and hence any permutation of the rows permutes
the gateway calls identically. -/
theorem submission_order_matches_input (g g' : Gateway) (k k' : Nat)
    (rows rows' : List Row) (hperm : rows.Perm rows') :
    (processRows g k rows).calls = rows.filterMap rowCall ∧
    ((processRows g k rows).calls).Perm ((processRows g' k' rows').calls) := by
  refine ⟨processRows_calls g rows k, ?_⟩
  rw [processRows_calls, processRows_calls]
  exact hperm.filterMap rowCall

theorem oversize_rejected_witness :
    (processRows gOK 0 ([rowAAPL] ++ rowMSFT :: [])).calls
        = (processRows gOK 0 ([rowAAPL] ++ [])).calls ∧
    (processRows gOK 0
        ([rowAAPL] ++ rowMSFT :: [])).outcomes[([rowAAPL] : List Row).length]?
        = some (.orderSafetyRejected 2000) :=
  oversize_rejected_no_gateway gOK [rowAAPL] [] rowMSFT 2000 "MSFT" "SELL"
    rfl rfl rfl (by decide)

theorem submission_order_witness :
    (processRows gOK 0 [rowAAPL, rowMSFT]).calls
        = [rowAAPL, rowMSFT].filterMap rowCall ∧
    ((processRows gOK 0 [rowAAPL, rowMSFT]).calls).Perm
        ((processRows gFail 0 [rowMSFT, rowAAPL]).calls) :=
  submission_order_matches_input gOK gFail 0 0 [rowAAPL, rowMSFT]
    [rowMSFT, rowAAPL] (List.Perm.swap rowMSFT rowAAPL [])

/-- C4 counterexample: the loader never aborts on schema problems.  With a
non-numeric quantity in the first row, the second row is still processed
and its order reaches the gateway (so the whole load was not aborted), and
a zero-quantity instruction — non-positive — is accepted and submitted to
the gateway rather than failing the load. -/
theorem schema_abort_refuted :
    (process_all_orders gOK (.table [rowBadQty, rowAAPL])).outcomes.length
        = 2 ∧
    (process_all_orders gOK (.table [rowBadQty, rowAAPL])).calls.map
        (fun co => co.1.symbol) = ["AAPL"] ∧
    (process_all_orders gOK (.table [rowZeroQty])).calls.map
        (fun co => co.1.symbol) = ["IWM"] := by
  decide

/-- C4 (amended): a source that cannot be located makes the read return no
dataframe (the error is logged) and the batch processes nothing; there is
no schema validation aborting the load — a row whose quantity cell is
non-numeric has its exception caught inside `create_order`, the row alone
is skipped, and every other row is still processed. -/
theorem missing_source_and_bad_row_skipped (g : Gateway)
    (pre post : List Row) (r : Row) (s : String)
    (hq : r.quantity = some (.nonNumeric s)) :
    process_all_orders g .notFound = ⟨[], [], []⟩ ∧
    create_order r = none ∧
    (processRows g 0 (pre ++ r :: post)).calls
        = (processRows g 0 (pre ++ post)).calls ∧
    (processRows g 0 (pre ++ r :: post)).outcomes.length
        = pre.length + (post.length + 1) := by
  have horder : create_order r = none := by
    cases ha : r.action with
    | none => simp [create_order, create_order_run, ha]
    | some a => simp [create_order, create_order_run, ha, hq]
  have hrow : rowCall r = none := by
    unfold rowCall
    rw [horder]
    cases create_contract r <;> rfl
  refine ⟨rfl, horder, ?_, ?_⟩
  · rw [processRows_calls, processRows_calls]
    simp [List.filterMap_append, hrow]
  · rw [processRows_outcomes_length]
    simp

theorem missing_source_witness :
    process_all_orders gOK .notFound = ⟨[], [], []⟩ ∧
    create_order rowBadQty = none ∧
    (processRows gOK 0 ([] ++ rowBadQty :: [rowAAPL])).calls
        = (processRows gOK 0 ([] ++ [rowAAPL])).calls ∧
    (processRows gOK 0 ([] ++ rowBadQty :: [rowAAPL])).outcomes.length
        = ([] : List Row).length + ([rowAAPL].length + 1) :=
  missing_source_and_bad_row_skipped gOK [] [rowAAPL] rowBadQty "abc" rfl

/-- C5: on the demonstration batch `[BUY 100 AAPL MKT, SELL 2000 MSFT MKT]`
with an accepting gateway, the aggregation counts are attempted = 2,
rejected-by-safety = 1, accepted = 1, and the only contract reaching the
gateway is AAPL. -/
theorem demo_batch_aggregation :
    ordersAttempted (process_all_orders gOK (.table [rowAAPL, rowMSFT]))
        = 2 ∧
    ordersRejectedBySafety
        (process_all_orders gOK (.table [rowAAPL, rowMSFT])) = 1 ∧
    ordersAccepted (process_all_orders gOK (.table [rowAAPL, rowMSFT]))
        = 1 ∧
    (process_all_orders gOK (.table [rowAAPL, rowMSFT])).calls.map
        (fun co => co.1.symbol) = ["AAPL"] := by
  decide

/-- C6: a quantity exactly equal to `MAX_ORDER_SIZE` passes the safety
guard — `create_order` builds the order with that quantity — and the row
contributes a gateway call, so the boundary is inclusive. -/
theorem boundary_quantity_accepted (r : Row) (sym act : String)
    (hsym : r.symbol = some sym) (hact : r.action = some act)
    (hq : r.quantity = some (.intVal MAX_ORDER_SIZE)) :
    (∃ o : Order, create_order r = some o
        ∧ o.totalQuantity = MAX_ORDER_SIZE) ∧
    (rowCall r).isSome = true := by
  have hguard : ¬ MAX_ORDER_SIZE > MAX_ORDER_SIZE := lt_irrefl _
  have horder : ∃ o : Order, create_order r = some o
      ∧ o.totalQuantity = MAX_ORDER_SIZE := by
    simp only [create_order, create_order_run, hact, hq]
    rw [if_neg hguard]
    exact ⟨_, rfl, rfl⟩
  refine ⟨horder, ?_⟩
  obtain ⟨o, ho, -⟩ := horder
  have hcon : ∃ c, create_contract r = some c := by
    simp [create_contract, create_contract_body, hsym, Except.toOption]
  obtain ⟨c, hc⟩ := hcon
  unfold rowCall
  rw [hc, ho]
  rfl

theorem boundary_quantity_witness :
    (∃ o : Order, create_order rowBound = some o
        ∧ o.totalQuantity = MAX_ORDER_SIZE) ∧
    (rowCall rowBound).isSome = true :=
  boundary_quantity_accepted rowBound "SPY" "BUY" rfl rfl rfl

/-- C7: an `LMT` instruction with no limit-price cell is translated without
error into an order whose limit-price field is unset — no default price is
substituted and the order type stays `LMT`. -/
theorem lmt_without_price_no_default (r : Row) (act : String) (q : Int)
    (hact : r.action = some act) (hq : r.quantity = some (.intVal q))
    (hle : ¬ q > MAX_ORDER_SIZE) (hot : r.orderType = some "LMT")
    (hlp : r.lmtPrice = none) :
    ∃ o : Order, create_order r = some o ∧ o.lmtPrice = none
      ∧ o.orderType = "LMT" := by
  have hup : strUpper "LMT" = "LMT" := by decide
  simp only [create_order, create_order_run, hact, hq, hot, Option.getD_some]
  rw [if_neg hle]
  exact ⟨_, rfl, by simp [hup, hlp], by simp [hup]⟩

theorem lmt_without_price_witness :
    ∃ o : Order, create_order rowLmtNoPrice = some o ∧ o.lmtPrice = none
      ∧ o.orderType = "LMT" :=
  lmt_without_price_no_default rowLmtNoPrice "BUY" 50 rfl rfl (by decide)
    rfl rfl

/-- C8: the unrealized profit-and-loss value displayed for a position is
`position * (avgCost - avgCost)` and therefore zero for every position;
the `Position` record carries no market price, so none is used. -/
theorem unrealized_pnl_always_zero (p : Position) :
    unrealizedPnL p = p.position * (p.avgCost - p.avgCost) ∧
    unrealizedPnL p = 0 := by
  refine ⟨rfl, ?_⟩
  simp [unrealizedPnL]

/-- C9: with the paper-only flag set and the connection established,
`connect` returns success, and the not-a-paper-account warning fires
exactly when the managed-account list is non-empty and no account matches
the paper / df / du pattern case-insensitively — so the check never blocks
the session. -/
theorem paper_warning_characterization (accounts : List String) :
    (connect true true accounts).success = true ∧
    ((connect true true accounts).warned = true ↔
      accounts ≠ [] ∧ ∀ acc ∈ accounts, isPaperLike acc = false) := by
  constructor
  · rfl
  · show (!accounts.isEmpty && !accounts.any isPaperLike) = true ↔ _
    simp [List.isEmpty_iff, List.any_eq_true]

/-- C10: a row on which contract creation or order creation fails is
silently skipped — its exception is caught, the gateway calls and the
returned trades are exactly those of the batch without it, and every row
of the batch still receives an outcome. -/
theorem creation_failure_silently_skipped (g : Gateway) (pre post : List Row)
    (r : Row) (h : create_contract r = none ∨ create_order r = none) :
    (processRows g 0 (pre ++ r :: post)).calls
        = (processRows g 0 (pre ++ post)).calls ∧
    (processRows g 0 (pre ++ r :: post)).trades
        = (processRows g 0 (pre ++ post)).trades ∧
    (processRows g 0 (pre ++ r :: post)).outcomes.length
        = pre.length + (post.length + 1) := by
  have hrow : rowCall r = none := by
    rcases h with h | h
    · unfold rowCall
      rw [h]
    · unfold rowCall
      rw [h]
      cases create_contract r <;> rfl
  refine ⟨?_, ?_, ?_⟩
  · rw [processRows_calls, processRows_calls]
    simp [List.filterMap_append, hrow]
  · rw [processRows_append g pre (r :: post) 0,
      processRows_append g pre post 0]
    have hskip :=
      processRows_skip g r hrow ((pre.filterMap rowCall).length) post
    simp [hskip.2.1]
  · rw [processRows_outcomes_length]
    simp

theorem creation_failure_witness :
    (processRows gOK 0 ([rowAAPL] ++ rowNoSymbol :: [])).calls
        = (processRows gOK 0 ([rowAAPL] ++ [])).calls ∧
    (processRows gOK 0 ([rowAAPL] ++ rowNoSymbol :: [])).trades
        = (processRows gOK 0 ([rowAAPL] ++ [])).trades ∧
    (processRows gOK 0 ([rowAAPL] ++ rowNoSymbol :: [])).outcomes.length
        = ([rowAAPL] : List Row).length + (([] : List Row).length + 1) :=
  creation_failure_silently_skipped gOK [rowAAPL] [] rowNoSymbol
    (Or.inl rfl)
